import Mathlib

/-! Verification of the coffee-product-site client scripts.

Two components are embedded shallowly:
* the edge request filter (an anonymous default-exported handler), which
  inspects each inbound request's pathname and user-agent header and either
  returns a 403 "Access Denied" response or delegates to the next handler;
* the browser motion/interaction controller (`src/main.js`), whose per-frame
  update functions, observer callbacks and mobile-nav state machine are
  modelled as pure functions over explicit state records.

JS strings are modelled as Lean `String`s (lists of characters); JS numbers
are modelled as exact rationals `ℚ` (the embedding ignores floating-point
rounding and the `toFixed` formatting applied when hints are written out).
`Math.sin` is kept abstract as a function parameter.
-/

namespace CoffeeSite

/-! Edge request filter (`part_000`)

```js
const path = url.pathname.toLowerCase();
const userAgent = (request.headers.get("user-agent") || "").toLowerCase();
const blockedExtensions = [".php", ".env", ".git", ".sql", ".bak", ".config"];
if (blockedExtensions.some(ext => path.endsWith(ext)))
  return new Response("Access Denied", { status: 403 });
const blockedBots = [...];
if (blockedBots.some(bot => userAgent.includes(bot)))
  return new Response("Access Denied", { status: 403 });
return context.next();
```
-/

/-- Outcome of the edge filter: a direct `Response(body, {status})`, or
delegation to `context.next()` with the request unmodified. -/
inductive EdgeResponse where
  | response (status : Nat) (body : String)
  | next
deriving DecidableEq

/-- JS `String.prototype.toLowerCase`, characterwise (ASCII case mapping; the
inputs checked by the filter are ASCII). -/
def jsToLowerCase (s : String) : List Char :=
  s.data.map Char.toLower

/-- The `blockedExtensions` rule list. -/
def blockedExtensions : List String :=
  [".php", ".env", ".git", ".sql", ".bak", ".config"]

/-- The `blockedBots` rule list. -/
def blockedBots : List String :=
  ["semrushbot", "ahrefsbot", "dotbot", "mj12bot", "petalbot", "bytespider",
   "liebaofast"]

/-- The default-exported edge handler.  `pathname` is `url.pathname`;
`userAgentHeader` is `request.headers.get("user-agent")` (`none` when the
header is absent, in which case `|| ""` supplies the empty string).
JS `path.endsWith(ext)` is list-suffix, `userAgent.includes(bot)` is
list-infix. -/
def edgeFilter (pathname : String) (userAgentHeader : Option String) :
    EdgeResponse :=
  let path := jsToLowerCase pathname
  let userAgent := jsToLowerCase (userAgentHeader.getD "")
  if blockedExtensions.any fun ext => decide (ext.data <:+ path) then
    .response 403 "Access Denied"
  else if blockedBots.any fun bot => decide (bot.data <:+: userAgent) then
    .response 403 "Access Denied"
  else
    .next

set_option maxRecDepth 20000 in
/-- C1: the edge filter denies (status 403, body "Access Denied") iff the
lowercased path ends with a blocked suffix or the lowercased user-agent
(empty when the header is absent) contains a blocked bot substring;
otherwise it delegates to the next handler.  The listed concrete requests
behave as the claim states. -/
theorem edgeFilter_deny_iff :
    (∀ (pathname : String) (ua : Option String),
      edgeFilter pathname ua = .response 403 "Access Denied" ↔
        ((∃ ext ∈ blockedExtensions, ext.data <:+ jsToLowerCase pathname) ∨
         (∃ bot ∈ blockedBots, bot.data <:+: jsToLowerCase (ua.getD "")))) ∧
    (∀ (pathname : String) (ua : Option String),
      edgeFilter pathname ua ≠ .response 403 "Access Denied" →
        edgeFilter pathname ua = .next) ∧
    edgeFilter "/config.env" none = .response 403 "Access Denied" ∧
    edgeFilter "/.env" none = .response 403 "Access Denied" ∧
    edgeFilter "/data.sql" none = .response 403 "Access Denied" ∧
    edgeFilter "/report.SQL" none = .response 403 "Access Denied" ∧
    edgeFilter "/about"
      (some "Mozilla/5.0 (compatible; AhrefsBot/7.0; +http://ahrefs.com/robot/)")
      = .response 403 "Access Denied" ∧
    edgeFilter "/about"
      (some "Mozilla/5.0 (Windows NT 10.0; Win64; x64) AppleWebKit/537.36 (KHTML, like Gecko) Chrome/120.0.0.0 Safari/537.36")
      = .next := by
  refine ⟨?_, ?_, by decide, by decide, by decide, by decide, by decide, by decide⟩
  · intro pathname ua
    simp only [edgeFilter]
    split
    · rename_i h
      simp only [List.any_eq_true, decide_eq_true_eq] at h
      simpa using Or.inl h
    · split
      · rename_i h
        simp only [List.any_eq_true, decide_eq_true_eq] at h
        simpa using Or.inr h
      · rename_i h1 h2
        simp only [List.any_eq_true, decide_eq_true_eq] at h1 h2
        constructor
        · intro h; cases h
        · intro h
          rcases h with h | h
          · exact absurd h h1
          · exact absurd h h2
  · intro pathname ua h
    simp only [edgeFilter] at h ⊢
    split at h
    · exact absurd rfl h
    · split at h
      · exact absurd rfl h
      · rename_i h1 h2
        rw [if_neg h1, if_neg h2]

/-! Motion controller (`src/main.js`): utilities and frame state -/

/-- The helper `const lerp = (start, end, factor) => start + (end - start) * factor;` -/
def lerp (start stop factor : ℚ) : ℚ :=
  start + (stop - start) * factor

/-- The helper `const clamp = (num, min, max) => Math.min(Math.max(num, min), max);`
(the source's parameters `min`/`max` are `lo`/`hi` here). -/
def clamp (num lo hi : ℚ) : ℚ :=
  min (max num lo) hi

/-- Constant `CONFIG.motion.parallax` (0.08). -/
def parallaxStrength : ℚ := 8 / 100

/-- The literal blend factor `0.15` used by `updateCursorGlow`
(`lerp(mouseX, targetMouseX, 0.15)`). -/
def glowLerpFactor : ℚ := 15 / 100

/-- The literal blend factor `0.03` used by `updatePressureGauge`
(`lerp(state.pressure.current, target, 0.03)`). -/
def pressureLerpFactor : ℚ := 3 / 100

/-- JS `Math.PI` (modelled as the decimal rational printed by the double). -/
def mathPI : ℚ := 3.141592653589793

/-- A `DOMRect` as read by the controller (`getBoundingClientRect()`):
only the fields the script uses. -/
structure Rect where
  top : ℚ
  bottom : ℚ
  left : ℚ
  width : ℚ
  height : ℚ
deriving DecidableEq

/-- Flags `state.isTouch` and `state.prefersReducedMotion`. -/
structure Flags where
  prefersReducedMotion : Bool
  isTouch : Bool
deriving DecidableEq

/-- The CSS custom-property render hints the frame loop publishes
(`--p-hero-y`, `--p-media-y`, `--cx`, `--cy`, `--cv`, `--burr-opacity`,
`--burr-rotate`, `--pressure-level`, `--scroll-progress`) plus the
header's `is-scrolled` class.  Each field holds the last value written. -/
structure Hints where
  pHeroY : ℚ
  pMediaY : ℚ
  cx : ℚ
  cy : ℚ
  cv : ℚ
  burrOpacity : ℚ
  burrRotate : ℚ
  pressureLevel : ℚ
  scrollProgress : ℚ
  headerScrolled : Bool
deriving DecidableEq

/-- Mutable motion state across frames: the glow follower position
(`mouseX`, `mouseY`), the raw pointer sample (`targetMouseX/Y`, written by
`onMouseMove`), the damped pressure scalar (`state.pressure.current`), and
the published hints. -/
structure FrameState where
  mouseX : ℚ
  mouseY : ℚ
  targetMouseX : ℚ
  targetMouseY : ℚ
  pressureCurrent : ℚ
  hints : Hints
deriving DecidableEq

/-- Per-frame DOM reads: `window.scrollY`, `window.innerHeight`,
`document.body.scrollHeight`, the bounding rect of the `is-active` product
section (if any; at most one section is active, see
`productCallbackEntry`), the rects of the `stonewave` and `mariner-9`
sections (if present), and whether the optional `.cursor-glow` element
exists. -/
structure Env where
  scrollY : ℚ
  innerHeight : ℚ
  scrollHeight : ℚ
  activeRect : Option Rect
  stonewaveRect : Option Rect
  marinerRect : Option Rect
  hasCursorGlow : Bool
deriving DecidableEq

/-- Function `updateParallax`: skipped under reduced motion or touch; otherwise, for
the active section, publishes two clamped parallax offsets derived from
the section's distance from the viewport centre. -/
def updateParallax (fl : Flags) (env : Env) (st : FrameState) : FrameState :=
  if fl.prefersReducedMotion || fl.isTouch then st
  else
    match env.activeRect with
    | none => st
    | some rect =>
        let center := env.innerHeight / 2
        let sectionCenter := rect.top + rect.height / 2
        let dist := sectionCenter - center
        let yHero := clamp (dist * parallaxStrength) (-50) 50
        let yMedia := clamp (dist * (parallaxStrength * (3 / 2))) (-80) 80
        { st with hints := { st.hints with pHeroY := yHero, pMediaY := yMedia } }

/-- Function `updateCursorGlow`: skipped when the glow element is missing, on touch,
or under reduced motion; otherwise lerps the glow position toward the raw
pointer with factor 0.15 and publishes position and capped velocity. -/
def updateCursorGlow (fl : Flags) (env : Env) (st : FrameState) : FrameState :=
  if !env.hasCursorGlow || fl.isTouch || fl.prefersReducedMotion then st
  else
    let mouseX := lerp st.mouseX st.targetMouseX glowLerpFactor
    let mouseY := lerp st.mouseY st.targetMouseY glowLerpFactor
    let vx := |st.targetMouseX - mouseX|
    let vy := |st.targetMouseY - mouseY|
    let v := min (vx + vy) 50
    { st with
      mouseX := mouseX,
      mouseY := mouseY,
      hints := { st.hints with cx := mouseX, cy := mouseY, cv := v } }

/-- Function `updateBurrGeometry`: skipped under reduced motion only; when the
`stonewave` section exists and is on-screen, publishes a sine-curve
opacity (`Math.sin` abstracted as `sinFn`) and a rotation proportional to
traversal progress. -/
def updateBurrGeometry (sinFn : ℚ → ℚ) (fl : Flags) (env : Env)
    (st : FrameState) : FrameState :=
  if fl.prefersReducedMotion then st
  else
    match env.stonewaveRect with
    | none => st
    | some rect =>
        let height := env.innerHeight
        if rect.top < height ∧ rect.bottom > 0 then
          let progress := 1 - rect.bottom / (rect.height + height)
          let opacity := sinFn (clamp progress 0 1 * mathPI)
          let rotation := progress * 360
          { st with hints :=
              { st.hints with burrOpacity := opacity, burrRotate := rotation } }
        else st

/-- The pressure target computed by `updatePressureGauge`: traversal
progress of the `mariner-9` section clamped to [0,1] when on-screen,
otherwise the initial `let target = 0`. -/
def pressureTarget (rect : Rect) (height : ℚ) : ℚ :=
  if rect.top < height ∧ rect.bottom > 0 then
    clamp (1 - rect.bottom / (rect.height + height)) 0 1
  else 0

/-- One step of the heavy easing at the heart of `updatePressureGauge`:
`state.pressure.current = lerp(state.pressure.current, target, 0.03)`. -/
def pressureStep (current target : ℚ) : ℚ :=
  lerp current target pressureLerpFactor

/-- Function `updatePressureGauge`: skipped under reduced motion only; when the
`mariner-9` section exists, eases the pressure scalar toward its target
with factor 0.03 and publishes it. -/
def updatePressureGauge (fl : Flags) (env : Env) (st : FrameState) :
    FrameState :=
  if fl.prefersReducedMotion then st
  else
    match env.marinerRect with
    | none => st
    | some rect =>
        let target := pressureTarget rect env.innerHeight
        let current := pressureStep st.pressureCurrent target
        { st with
          pressureCurrent := current,
          hints := { st.hints with pressureLevel := current } }

/-- Function `updateScrollProgress`: always runs; publishes the clamped scroll
fraction and toggles the compact-header class at the 100px threshold. -/
def updateScrollProgress (env : Env) (st : FrameState) : FrameState :=
  let limit := env.scrollHeight - env.innerHeight
  let progress := clamp (env.scrollY / limit) 0 1
  let st1 := { st with hints := { st.hints with scrollProgress := progress } }
  if env.scrollY > 100 then
    { st1 with hints := { st1.hints with headerScrolled := true } }
  else
    { st1 with hints := { st1.hints with headerScrolled := false } }

/-- One iteration of `renderLoop`: the five update calls in source order
(`currentScroll = window.scrollY` is `env.scrollY`). -/
def renderFrame (sinFn : ℚ → ℚ) (fl : Flags) (env : Env) (st : FrameState) :
    FrameState :=
  updateScrollProgress env
    (updatePressureGauge fl env
      (updateBurrGeometry sinFn fl env
        (updateCursorGlow fl env
          (updateParallax fl env st))))

/-- C2: the scroll-progress hint published by `updateScrollProgress` lies
in [0,1] for every scroll offset and every document geometry, including
negative offsets and offsets beyond the scrollable range. -/
theorem scrollProgress_mem_unitInterval (env : Env) (st : FrameState) :
    0 ≤ (updateScrollProgress env st).hints.scrollProgress ∧
      (updateScrollProgress env st).hints.scrollProgress ≤ 1 := by
  unfold updateScrollProgress
  split <;>
    simp only [clamp] <;>
    exact ⟨le_min (le_max_right _ _) zero_le_one, min_le_right _ _⟩

/-- C3: each frame's pressure update moves the scalar strictly toward the
target without overshoot (from below and, symmetrically, from above), the
per-frame step is exactly the fixed fraction 0.03 of the remaining
distance, the pressure blend factor 0.03 is strictly smaller than the glow
follower's 0.15, and `updatePressureGauge` indeed applies this step when
it runs. -/
theorem pressureStep_toward_target (current target : ℚ) :
    (current < target →
      current < pressureStep current target ∧
        pressureStep current target ≤ target) ∧
    (target < current →
      pressureStep current target < current ∧
        target ≤ pressureStep current target) ∧
    |pressureStep current target - current|
      = pressureLerpFactor * |target - current| ∧
    pressureLerpFactor < glowLerpFactor ∧
    (∀ (fl : Flags) (env : Env) (st : FrameState) (rect : Rect),
      fl.prefersReducedMotion = false → env.marinerRect = some rect →
      (updatePressureGauge fl env st).pressureCurrent
        = pressureStep st.pressureCurrent (pressureTarget rect env.innerHeight)) := by
  refine ⟨?_, ?_, ?_, by norm_num [pressureLerpFactor, glowLerpFactor], ?_⟩
  · intro h
    constructor <;>
      · simp only [pressureStep, lerp, pressureLerpFactor]
        nlinarith
  · intro h
    constructor <;>
      · simp only [pressureStep, lerp, pressureLerpFactor]
        nlinarith
  · have h : pressureStep current target - current
        = (target - current) * (3 / 100) := by
      simp only [pressureStep, lerp, pressureLerpFactor]
      ring
    rw [h, abs_mul, abs_of_nonneg (by norm_num : (0 : ℚ) ≤ 3 / 100), mul_comm]
    simp only [pressureLerpFactor]
  · intro fl env st rect h1 h2
    simp [updatePressureGauge, h1, h2]

/-- Instantiation of `pressureStep_toward_target` at concrete states
approaching the target from below (0 toward 1) and from above
(2 toward 1). -/
theorem pressureStep_toward_target_witness :
    (0 : ℚ) < pressureStep 0 1 ∧ pressureStep 0 1 ≤ 1 ∧
      pressureStep 2 1 < 2 := by
  exact ⟨((pressureStep_toward_target 0 1).1 (by norm_num)).1,
    ((pressureStep_toward_target 0 1).1 (by norm_num)).2,
    ((pressureStep_toward_target 2 1).2.1 (by norm_num)).1⟩

/-! Intersection observers (`initScrollReveal`, `initProductObserver`)

Observer callbacks receive a list of entries and process them with
`forEach`, modelled as a left fold.  Each entry carries the target element
and the `isIntersecting` flag the callbacks read (the host sets it when
the visible fraction crosses the configured threshold —
`CONFIG.thresholds.reveal` = 0.15 for the reveal observer,
`CONFIG.thresholds.active` = 0.5 for the product observer). -/

/-- One `IntersectionObserverEntry` as read by the callbacks. -/
structure ObserverEntry (α : Type) where
  target : α
  isIntersecting : Bool

/-- State of the reveal subsystem: which elements carry the `is-visible`
class, and which are currently observed by the reveal observer. -/
structure RevealState (α : Type) where
  visible : α → Bool
  observed : α → Bool

/-- The body of the reveal observer callback for one entry:
`if (entry.isIntersecting) { el.classList.add("is-visible");
observer.unobserve(el); }`. -/
def revealCallbackEntry {α : Type} [DecidableEq α] (s : RevealState α)
    (e : ObserverEntry α) : RevealState α :=
  if e.isIntersecting then
    { visible := fun x => if x = e.target then true else s.visible x,
      observed := fun x => if x = e.target then false else s.observed x }
  else s

/-- Function `initScrollReveal`: under reduced motion, add `is-visible` to every
reveal element and attach no observer; otherwise observe every reveal
element. -/
def initScrollReveal {α : Type} [DecidableEq α] (prefersReducedMotion : Bool)
    (revealElements : List α) (s : RevealState α) : RevealState α :=
  if prefersReducedMotion then
    { s with visible := fun x => if x ∈ revealElements then true else s.visible x }
  else
    { s with observed := fun x => if x ∈ revealElements then true else s.observed x }

/-- Processing one entry never removes the `is-visible` class from any
element. -/
theorem revealCallbackEntry_visible_mono {α : Type} [DecidableEq α]
    (s : RevealState α) (e : ObserverEntry α) (x : α)
    (h : s.visible x = true) : (revealCallbackEntry s e).visible x = true := by
  unfold revealCallbackEntry
  split
  · by_cases hx : x = e.target <;> simp [hx, h]
  · exact h

/-- C4: once an element is marked visible it stays marked visible across
any further sequence of observer entries, and an entry that fires
(is intersecting) marks its target visible and cancels its observation. -/
theorem reveal_fire_once {α : Type} [DecidableEq α] (s : RevealState α)
    (entries : List (ObserverEntry α)) (x : α) (h : s.visible x = true) :
    (entries.foldl revealCallbackEntry s).visible x = true ∧
    (∀ e : ObserverEntry α, e.isIntersecting = true →
      (revealCallbackEntry s e).visible e.target = true ∧
      (revealCallbackEntry s e).observed e.target = false) := by
  constructor
  · induction entries generalizing s with
    | nil => exact h
    | cons e es ih =>
        exact ih _ (revealCallbackEntry_visible_mono s e x h)
  · intro e he
    unfold revealCallbackEntry
    rw [if_pos he]
    simp

/-- Instantiation of `reveal_fire_once` over `Nat` elements: element 0 is
already visible and stays visible after two more entries; an intersecting
entry for element 5 marks it visible and unobserves it. -/
theorem reveal_fire_once_witness :
    ((([⟨1, true⟩, ⟨0, false⟩] : List (ObserverEntry Nat)).foldl
        revealCallbackEntry ⟨fun x => x == 0, fun _ => true⟩).visible 0 = true ∧
      (revealCallbackEntry (⟨fun x => x == 0, fun _ => true⟩ : RevealState Nat)
          ⟨5, true⟩).visible 5 = true ∧
      (revealCallbackEntry (⟨fun x => x == 0, fun _ => true⟩ : RevealState Nat)
          ⟨5, true⟩).observed 5 = false) := by
  have h := reveal_fire_once (α := Nat) ⟨fun x => x == 0, fun _ => true⟩
    [⟨1, true⟩, ⟨0, false⟩] 0 (by decide)
  exact ⟨h.1, (h.2 ⟨5, true⟩ rfl).1, (h.2 ⟨5, true⟩ rfl).2⟩

/-- The body of the product observer callback for one entry: when the
entry intersects, remove `is-active` from every product section, then add
it to the entry's target.  The function returns the new `is-active`
membership predicate. -/
def productCallbackEntry {α : Type} [DecidableEq α] (sections : List α)
    (active : α → Bool) (e : ObserverEntry α) : α → Bool :=
  if e.isIntersecting then
    fun x => if x = e.target then true
             else if x ∈ sections then false else active x
  else active

/-- Number of product sections currently carrying `is-active`. -/
def countActiveSections {α : Type} (sections : List α) (active : α → Bool) :
    Nat :=
  sections.countP fun x => active x

/-- After a clear-all-then-mark-one update, at most one section (the
marked one) is active. -/
theorem countP_clear_then_mark {α : Type} [DecidableEq α] (sections : List α)
    (hnd : sections.Nodup) (active : α → Bool) (t : α) :
    (sections.countP fun x =>
        if x = t then true else if x ∈ sections then false else active x) ≤ 1 := by
  calc (sections.countP fun x =>
          if x = t then true else if x ∈ sections then false else active x)
      ≤ sections.countP (· == t) := by
        apply List.countP_mono_left
        intro x hx hpx
        by_cases hxt : x = t
        · simp [hxt]
        · simp [hxt, hx] at hpx
    _ = sections.count t := (List.count_eq_countP t sections).symm
    _ ≤ 1 := List.nodup_iff_count_le_one.mp hnd t

/-- C5: for a duplicate-free section list, every product-observer entry
preserves "at most one section is active", and from the initial state in
which no section is active, any sequence of entries leaves at most one
section active. -/
theorem active_section_unique {α : Type} [DecidableEq α] (sections : List α)
    (hnd : sections.Nodup) :
    (∀ (active : α → Bool) (e : ObserverEntry α),
      countActiveSections sections active ≤ 1 →
      countActiveSections sections (productCallbackEntry sections active e) ≤ 1) ∧
    (∀ entries : List (ObserverEntry α),
      countActiveSections sections
        (entries.foldl (productCallbackEntry sections) fun _ => false) ≤ 1) := by
  have step : ∀ (active : α → Bool) (e : ObserverEntry α),
      countActiveSections sections active ≤ 1 →
      countActiveSections sections (productCallbackEntry sections active e) ≤ 1 := by
    intro active e h
    by_cases he : e.isIntersecting
    · unfold productCallbackEntry
      rw [if_pos he]
      exact countP_clear_then_mark sections hnd active e.target
    · unfold productCallbackEntry
      rw [if_neg he]
      exact h
  refine ⟨step, ?_⟩
  have general : ∀ (entries : List (ObserverEntry α)) (active : α → Bool),
      countActiveSections sections active ≤ 1 →
      countActiveSections sections
        (entries.foldl (productCallbackEntry sections) active) ≤ 1 := by
    intro entries
    induction entries with
    | nil => intro active h; exact h
    | cons e es ih =>
        intro active h
        exact ih _ (step active e h)
  intro entries
  apply general
  simp [countActiveSections]

/-- Instantiation of `active_section_unique` on the three-section registry
`[0, 1, 2]`, after two intersecting entries. -/
theorem active_section_unique_witness :
    countActiveSections [0, 1, 2]
      (([⟨1, true⟩, ⟨2, true⟩] : List (ObserverEntry Nat)).foldl
        (productCallbackEntry [0, 1, 2]) fun _ => false) ≤ 1 := by
  exact (active_section_unique [0, 1, 2] (by decide)).2 [⟨1, true⟩, ⟨2, true⟩]

/-! Skip guards of the per-frame updates -/

/-- The initial hint store (no CSS custom properties written yet). -/
def Hints.init : Hints :=
  ⟨0, 0, 0, 0, 0, 0, 0, 0, 0, false⟩

/-- The controller's initial motion state
(`mouse: {x:0,y:0}`, `pressure: {current:0}`). -/
def FrameState.init : FrameState :=
  ⟨0, 0, 0, 0, 0, Hints.init⟩

theorem updateParallax_reduced {fl : Flags} (env : Env) (st : FrameState)
    (h : fl.prefersReducedMotion = true) : updateParallax fl env st = st := by
  simp [updateParallax, h]

theorem updateParallax_touch {fl : Flags} (env : Env) (st : FrameState)
    (h : fl.isTouch = true) : updateParallax fl env st = st := by
  simp [updateParallax, h]

theorem updateCursorGlow_reduced {fl : Flags} (env : Env) (st : FrameState)
    (h : fl.prefersReducedMotion = true) : updateCursorGlow fl env st = st := by
  simp [updateCursorGlow, h]

theorem updateCursorGlow_touch {fl : Flags} (env : Env) (st : FrameState)
    (h : fl.isTouch = true) : updateCursorGlow fl env st = st := by
  simp [updateCursorGlow, h]

theorem updateBurrGeometry_reduced (sinFn : ℚ → ℚ) {fl : Flags} (env : Env)
    (st : FrameState) (h : fl.prefersReducedMotion = true) :
    updateBurrGeometry sinFn fl env st = st := by
  simp [updateBurrGeometry, h]

theorem updatePressureGauge_reduced {fl : Flags} (env : Env) (st : FrameState)
    (h : fl.prefersReducedMotion = true) :
    updatePressureGauge fl env st = st := by
  simp [updatePressureGauge, h]

/-- C6 counterexample: on a touch-only device without reduced motion
(`isTouch = true`, `prefersReducedMotion = false`), `updatePressureGauge`
still changes the pressure scalar — its guard checks only
`state.prefersReducedMotion`, not `state.isTouch` — refuting the claim
that every motion update is a no-op whenever reduced motion is requested
or the device is touch-only. -/
theorem touch_pressure_still_runs :
    (Flags.mk false true).isTouch = true ∧
    (updatePressureGauge ⟨false, true⟩
        ⟨0, 800, 2000, none, none, some ⟨400, 1000, 0, 800, 600⟩, false⟩
        FrameState.init).pressureCurrent
      ≠ FrameState.init.pressureCurrent := by
  constructor
  · rfl
  · norm_num [updatePressureGauge, pressureTarget, pressureStep, lerp,
      pressureLerpFactor, clamp, FrameState.init, Hints.init, min_def, max_def]

/-- C6 (amended): under reduced motion all four motion updates leave the
state untouched; on a touch-only device only the parallax and cursor-glow
updates are skipped (the burr-geometry and pressure updates guard only on
reduced motion). -/
theorem motion_skip_guards (sinFn : ℚ → ℚ) (fl : Flags) (env : Env)
    (st : FrameState) :
    (fl.prefersReducedMotion = true →
      updateParallax fl env st = st ∧
      updateCursorGlow fl env st = st ∧
      updateBurrGeometry sinFn fl env st = st ∧
      updatePressureGauge fl env st = st) ∧
    (fl.isTouch = true →
      updateParallax fl env st = st ∧
      updateCursorGlow fl env st = st) := by
  constructor
  · intro h
    exact ⟨updateParallax_reduced env st h, updateCursorGlow_reduced env st h,
      updateBurrGeometry_reduced sinFn env st h,
      updatePressureGauge_reduced env st h⟩
  · intro h
    exact ⟨updateParallax_touch env st h, updateCursorGlow_touch env st h⟩

/-- Instantiation of `motion_skip_guards` under reduced motion and under
touch, at the initial state. -/
theorem motion_skip_guards_witness :
    updateParallax ⟨true, false⟩
        ⟨0, 800, 2000, none, none, none, true⟩ FrameState.init
      = FrameState.init ∧
    updatePressureGauge ⟨true, false⟩
        ⟨0, 800, 2000, none, none, none, true⟩ FrameState.init
      = FrameState.init ∧
    updateCursorGlow ⟨false, true⟩
        ⟨0, 800, 2000, none, none, none, true⟩ FrameState.init
      = FrameState.init := by
  refine ⟨?_, ?_, ?_⟩
  · exact ((motion_skip_guards (fun q => q) ⟨true, false⟩
      ⟨0, 800, 2000, none, none, none, true⟩ FrameState.init).1 rfl).1
  · exact ((motion_skip_guards (fun q => q) ⟨true, false⟩
      ⟨0, 800, 2000, none, none, none, true⟩ FrameState.init).1 rfl).2.2.2
  · exact ((motion_skip_guards (fun q => q) ⟨false, true⟩
      ⟨0, 800, 2000, none, none, none, true⟩ FrameState.init).2 rfl).2

/-! Reduced-motion fallback (C7) -/

/-- The parallax, glow, pressure and rotation hints together with the
internal motion state they depend on (everything the frame loop may write
except the scroll-progress bookkeeping). -/
def motionHints (st : FrameState) : List ℚ :=
  [st.mouseX, st.mouseY, st.pressureCurrent,
   st.hints.pHeroY, st.hints.pMediaY,
   st.hints.cx, st.hints.cy, st.hints.cv,
   st.hints.burrOpacity, st.hints.burrRotate, st.hints.pressureLevel]

theorem updateScrollProgress_motionHints (env : Env) (st : FrameState) :
    motionHints (updateScrollProgress env st) = motionHints st := by
  simp only [updateScrollProgress]
  split <;> rfl

/-- C7: with the reduced-motion preference set, the motion hints (parallax
offsets, glow position/velocity, burr opacity/rotation, pressure level)
and the internal motion state are unchanged by any number of frames after
initialization; and `initScrollReveal` marks every reveal target visible
immediately while attaching no observation. -/
theorem reduced_motion_static {α : Type} [DecidableEq α] (sinFn : ℚ → ℚ)
    (fl : Flags) (h : fl.prefersReducedMotion = true) (envs : List Env)
    (st : FrameState) (revealElements : List α) (x : α)
    (hx : x ∈ revealElements) (s : RevealState α) :
    motionHints (envs.foldl (fun acc e => renderFrame sinFn fl e acc) st)
      = motionHints st ∧
    (initScrollReveal true revealElements s).visible x = true ∧
    (initScrollReveal true revealElements s).observed = s.observed := by
  refine ⟨?_, ?_, ?_⟩
  · have frame : ∀ (env : Env) (stx : FrameState),
        renderFrame sinFn fl env stx = updateScrollProgress env stx := by
      intro env stx
      unfold renderFrame
      rw [updateParallax_reduced env stx h, updateCursorGlow_reduced env stx h,
        updateBurrGeometry_reduced sinFn env stx h,
        updatePressureGauge_reduced env stx h]
    induction envs generalizing st with
    | nil => rfl
    | cons e es ih =>
        calc motionHints ((e :: es).foldl
                (fun acc env => renderFrame sinFn fl env acc) st)
            = motionHints (es.foldl
                (fun acc env => renderFrame sinFn fl env acc)
                (updateScrollProgress e st)) := by rw [List.foldl_cons, frame]
          _ = motionHints (updateScrollProgress e st) := ih _
          _ = motionHints st := updateScrollProgress_motionHints e st
  · simp [initScrollReveal, hx]
  · simp [initScrollReveal]

/-- Instantiation of `reduced_motion_static` at a one-frame environment
list and a single reveal target. -/
theorem reduced_motion_static_witness :
    motionHints (([⟨0, 800, 2000, none, none, none, true⟩] : List Env).foldl
        (fun acc e => renderFrame (fun q => q) ⟨true, false⟩ e acc)
        FrameState.init)
      = motionHints FrameState.init ∧
    (initScrollReveal true [7]
        (⟨fun _ => false, fun _ => false⟩ : RevealState Nat)).visible 7
      = true := by
  have h := reduced_motion_static (α := Nat) (fun q => q) ⟨true, false⟩ rfl
    [⟨0, 800, 2000, none, none, none, true⟩] FrameState.init [7] 7
    (by decide) ⟨fun _ => false, fun _ => false⟩
  exact ⟨h.1, h.2.1⟩

/-! Mobile navigation (`initMobileNav`)

The menu's observable state: the toggle's `aria-expanded` attribute, the
`nav-open` class on the root element, whether body scroll is locked
(`document.body.style.overflow = "hidden"`), where keyboard focus was
moved, and the saved `state.lastScrollPosition`.  `firstFocusable` is
assumed to exist (the menu contains links); the 100 ms focus delay is
collapsed into the transition. -/

inductive FocusTarget where
  | toggleControl
  | firstItem
  | other
deriving DecidableEq

structure NavState where
  ariaExpanded : Bool
  navOpenClass : Bool
  overflowHidden : Bool
  focus : FocusTarget
  lastScrollPosition : ℚ
deriving DecidableEq

/-- Function `toggleMenu`: flip `aria-expanded` and the `nav-open` class; when the
menu was closed, save the scroll position, lock body scroll and focus the
first focusable item; when it was open, restore body scroll and focus the
toggle. -/
def toggleMenu (scrollY : ℚ) (s : NavState) : NavState :=
  let isExpanded := s.ariaExpanded
  let s1 := { s with
    ariaExpanded := !isExpanded,
    navOpenClass := !s.navOpenClass }
  if !isExpanded then
    { s1 with
      lastScrollPosition := scrollY,
      overflowHidden := true,
      focus := .firstItem }
  else
    { s1 with
      overflowHidden := false,
      focus := .toggleControl }

/-- The events `initMobileNav` wires up: a click on the toggle, a click on
an in-menu link (which calls `toggleMenu` only when `aria-expanded` is
`"true"`), and an Escape keydown on the menu (which calls `toggleMenu`
unconditionally). -/
inductive NavEvent where
  | toggleClick
  | linkClick
  | escapeKeydown

def navHandleEvent (scrollY : ℚ) (s : NavState) : NavEvent → NavState
  | .toggleClick => toggleMenu scrollY s
  | .linkClick => if s.ariaExpanded then toggleMenu scrollY s else s
  | .escapeKeydown => toggleMenu scrollY s

/-- C8: activating the toggle while the menu is closed opens it, sets
`aria-expanded` to true, locks page scroll and moves focus to the first
focusable item; pressing Escape while it is open closes it, sets
`aria-expanded` to false, restores page scroll and returns focus to the
toggle control. -/
theorem mobileNav_open_close (scrollY scrollY2 : ℚ) (s : NavState)
    (hexp : s.ariaExpanded = false) (hcls : s.navOpenClass = false) :
    ((navHandleEvent scrollY s .toggleClick).ariaExpanded = true ∧
     (navHandleEvent scrollY s .toggleClick).navOpenClass = true ∧
     (navHandleEvent scrollY s .toggleClick).overflowHidden = true ∧
     (navHandleEvent scrollY s .toggleClick).focus = .firstItem ∧
     (navHandleEvent scrollY s .toggleClick).lastScrollPosition = scrollY) ∧
    (∀ t : NavState, t.ariaExpanded = true → t.navOpenClass = true →
      (navHandleEvent scrollY2 t .escapeKeydown).ariaExpanded = false ∧
      (navHandleEvent scrollY2 t .escapeKeydown).navOpenClass = false ∧
      (navHandleEvent scrollY2 t .escapeKeydown).overflowHidden = false ∧
      (navHandleEvent scrollY2 t .escapeKeydown).focus = .toggleControl) := by
  constructor
  · simp [navHandleEvent, toggleMenu, hexp, hcls]
  · intro t h1 h2
    simp [navHandleEvent, toggleMenu, h1, h2]

/-- Instantiation of `mobileNav_open_close`: opening from the closed menu
state and closing the open state it produces. -/
theorem mobileNav_open_close_witness :
    (navHandleEvent 40 (⟨false, false, false, .other, 0⟩ : NavState)
        .toggleClick).ariaExpanded = true ∧
    (navHandleEvent 40 (⟨true, true, true, .firstItem, 40⟩ : NavState)
        .escapeKeydown).ariaExpanded = false ∧
    (navHandleEvent 40 (⟨true, true, true, .firstItem, 40⟩ : NavState)
        .escapeKeydown).overflowHidden = false := by
  have h := mobileNav_open_close 40 40 (⟨false, false, false, .other, 0⟩ : NavState)
    rfl rfl
  exact ⟨h.1.1, (h.2 ⟨true, true, true, .firstItem, 40⟩ rfl rfl).1,
    (h.2 ⟨true, true, true, .firstItem, 40⟩ rfl rfl).2.2.1⟩

/-- C10: the Escape handler calls `toggleMenu` without checking
`aria-expanded`, so an Escape keydown reaching the menu while it is closed
opens it — `aria-expanded` becomes true, scroll locks and focus moves to
the first item — whereas the in-menu link handler, which does check,
leaves the closed state unchanged. -/
theorem escape_opens_closed_menu (scrollY : ℚ) (s : NavState)
    (h : s.ariaExpanded = false) :
    (navHandleEvent scrollY s .escapeKeydown).ariaExpanded = true ∧
    (navHandleEvent scrollY s .escapeKeydown).overflowHidden = true ∧
    (navHandleEvent scrollY s .escapeKeydown).focus = .firstItem ∧
    navHandleEvent scrollY s .linkClick = s := by
  simp [navHandleEvent, toggleMenu, h]

/-- Instantiation of `escape_opens_closed_menu` at the closed initial
menu state. -/
theorem escape_opens_closed_menu_witness :
    (navHandleEvent 0 (⟨false, false, false, .other, 0⟩ : NavState)
        .escapeKeydown).ariaExpanded = true ∧
    navHandleEvent 0 (⟨false, false, false, .other, 0⟩ : NavState)
        .linkClick = ⟨false, false, false, .other, 0⟩ := by
  have h := escape_opens_closed_menu 0 (⟨false, false, false, .other, 0⟩ : NavState) rfl
  exact ⟨h.1, h.2.2.2⟩

/-! Pointer sampling (`onMouseMove`) -/

/-- A product section as seen by the spotlight code: its bounding rect and
the last published `--mx`/`--my` values (`none` before the first write). -/
structure SpotlightSection where
  rect : Rect
  mx : Option ℚ
  my : Option ℚ
deriving DecidableEq

/-- The per-section body of `onMouseMove`: when the section intersects the
viewport (`rect.top < window.innerHeight && rect.bottom > 0`), publish the
pointer position normalized to the section's bounding box. -/
def spotlightUpdate (innerHeight clientX clientY : ℚ)
    (s : SpotlightSection) : SpotlightSection :=
  if s.rect.top < innerHeight ∧ s.rect.bottom > 0 then
    { s with
      mx := some ((clientX - s.rect.left) / s.rect.width),
      my := some ((clientY - s.rect.top) / s.rect.height) }
  else s

/-- Function `onMouseMove`: record the raw pointer sample, and — only when neither
touch nor reduced motion applies — run the spotlight update over every
product section. -/
def onMouseMove (fl : Flags) (innerHeight clientX clientY : ℚ)
    (sections : List SpotlightSection) (st : FrameState) :
    FrameState × List SpotlightSection :=
  ({ st with
     targetMouseX := clientX,
     targetMouseY := clientY },
   if !fl.isTouch && !fl.prefersReducedMotion then
     sections.map (spotlightUpdate innerHeight clientX clientY)
   else sections)

/-- C9 counterexample: with neither touch nor reduced motion, a pointer at
`clientX = 50` over a visible section whose box starts at `left = 100`
with `width = 200` gets the published horizontal coordinate
`(50 − 100) / 200 = −1/4`, which is not in the range 0–1: the source does
not clamp the normalized coordinates. -/
theorem spotlight_coordinate_out_of_range :
    (onMouseMove ⟨false, false⟩ 800 50 50
        [⟨⟨0, 100, 100, 200, 100⟩, none, none⟩] FrameState.init).2
      = [⟨⟨0, 100, 100, 200, 100⟩, some (-(1 / 4)), some (1 / 2)⟩] ∧
    ¬ (0 : ℚ) ≤ -(1 / 4) := by
  constructor
  · norm_num [onMouseMove, spotlightUpdate]
  · norm_num

/-- C9 (amended): on pointer move with neither touch nor reduced motion,
every product section intersecting the viewport gets the pointer position
normalized to its bounding box published as `--mx`/`--my` (without
clamping); these coordinates lie in [0,1] exactly when the pointer is
inside the box; and under touch or reduced motion the per-section
sampling is skipped entirely. -/
theorem spotlight_normalized (fl : Flags) (innerHeight clientX clientY : ℚ)
    (sections : List SpotlightSection) (st : FrameState) :
    (fl.isTouch = false → fl.prefersReducedMotion = false →
      (onMouseMove fl innerHeight clientX clientY sections st).2
        = sections.map (spotlightUpdate innerHeight clientX clientY)) ∧
    (∀ s : SpotlightSection,
      s.rect.top < innerHeight → s.rect.bottom > 0 →
      (spotlightUpdate innerHeight clientX clientY s).mx
        = some ((clientX - s.rect.left) / s.rect.width) ∧
      (spotlightUpdate innerHeight clientX clientY s).my
        = some ((clientY - s.rect.top) / s.rect.height)) ∧
    (∀ s : SpotlightSection,
      s.rect.top < innerHeight → s.rect.bottom > 0 →
      0 < s.rect.width → 0 < s.rect.height →
      s.rect.left ≤ clientX → clientX ≤ s.rect.left + s.rect.width →
      s.rect.top ≤ clientY → clientY ≤ s.rect.top + s.rect.height →
      0 ≤ (clientX - s.rect.left) / s.rect.width ∧
      (clientX - s.rect.left) / s.rect.width ≤ 1 ∧
      0 ≤ (clientY - s.rect.top) / s.rect.height ∧
      (clientY - s.rect.top) / s.rect.height ≤ 1) ∧
    (fl.isTouch = true ∨ fl.prefersReducedMotion = true →
      (onMouseMove fl innerHeight clientX clientY sections st).2
        = sections) := by
  refine ⟨?_, ?_, ?_, ?_⟩
  · intro h1 h2
    simp [onMouseMove, h1, h2]
  · intro s hTop hBot
    simp [spotlightUpdate, hTop, hBot]
  · intro s hTop hBot hw hh hx1 hx2 hy1 hy2
    refine ⟨div_nonneg (by linarith) hw.le, ?_,
      div_nonneg (by linarith) hh.le, ?_⟩
    · rw [div_le_one hw]; linarith
    · rw [div_le_one hh]; linarith
  · intro h
    rcases h with h | h <;> simp [onMouseMove, h]

/-- Instantiation of `spotlight_normalized`: a pointer inside a visible
section's box yields in-range coordinates, and touch skips the
sampling. -/
theorem spotlight_normalized_witness :
    ((0 : ℚ) ≤ ((150 : ℚ) - 100) / 200 ∧ ((150 : ℚ) - 100) / 200 ≤ 1 ∧
      (0 : ℚ) ≤ ((50 : ℚ) - 0) / 100 ∧ ((50 : ℚ) - 0) / 100 ≤ 1) ∧
    (onMouseMove ⟨false, true⟩ 800 150 50
        [⟨⟨0, 100, 100, 200, 100⟩, none, none⟩] FrameState.init).2
      = [⟨⟨0, 100, 100, 200, 100⟩, none, none⟩] := by
  have h := spotlight_normalized ⟨false, true⟩ 800 150 50
    [⟨⟨0, 100, 100, 200, 100⟩, none, none⟩] FrameState.init
  refine ⟨?_, h.2.2.2 (Or.inl rfl)⟩
  have hin := h.2.2.1 ⟨⟨0, 100, 100, 200, 100⟩, none, none⟩
    (by norm_num) (by norm_num) (by norm_num) (by norm_num)
    (by norm_num) (by norm_num) (by norm_num) (by norm_num)
  exact hin

end CoffeeSite
